import Mathlib

/-!
Verification of the verb-conjugator factory pipeline: a shallow embedding of
the agents (`code_gen_agent.py`, `test_agent.py`), the orchestrator
(`ui/gradio_app.py`) and the generated conjugation module
(`generated/conjugator/verb_conjugator.py`), with theorems about the
orchestration contract.

Python exceptions are modelled by `Except String`; mutable process state
(the tracking counter, the filesystem, MCP notifications) is threaded
explicitly as a `PState`.  A step has type `PState → Except String α × PState`
so that state mutated before a raise survives, as it does in Python.
-/

/-- Substring prefix test on character lists: does `pat` occur at the head of `s`?
Models the anchored part of the Python `in` operator on `str`. -/
def headMatch : List Char → List Char → Bool
  | [], _ => true
  | _ :: _, [] => false
  | a :: as, b :: bs => a == b && headMatch as bs

/-- Does `pat` occur at any position of `s`?  Helper for `hasSubstr`. -/
def subAt : List Char → List Char → Bool
  | pat, [] => headMatch pat []
  | pat, c :: rest => headMatch pat (c :: rest) || subAt pat rest

/-- Embeds the Python substring operator `pat in s` on strings. -/
def hasSubstr (s pat : String) : Bool := subAt pat.data s.data

/-- Record `RequirementSpec` (from `mcp.py`, fields as used by the agents and
the spec data model): languages, tenses, persons, irregular-verb flag. -/
structure RequirementSpec where
  languages : List String
  tenses : List String
  persons : List String
  handle_irregular : Bool
deriving Repr, DecidableEq

/-- Record `GeneratedCode` (from `mcp.py`, fields as constructed in
`code_gen_agent.py`). -/
structure GeneratedCode where
  filename : String
  code : String
  description : String
  dependencies : List String
deriving Repr, DecidableEq

/-- Process-wide mutable state threaded through the pipeline:
`calls` is the number of model calls attempted so far (the counter of the
tracking agent), `fs` is the filesystem as an association list where the most recent
write to a path is the first binding (whole-file overwrite), and `notes` is
the list of MCP notifications emitted so far. -/
structure PState where
  calls : Nat
  fs : List (String × String)
  notes : List String
deriving Repr, DecidableEq

/-- External environment: the model client (by call index and prompt; raising
is `.error`), the disk (write may raise), the usage-report path and its
serialized body (`config.api_config.USAGE_REPORT_FILE` and the report of
the tracking agent, whose code is outside `src/`). -/
structure Env where
  client : Nat → String → Except String String
  disk : String → String → Except String Unit
  reportPath : String
  reportBody : Nat → String

/-- Exception-propagating sequencing with state: Python control flow where an
uncaught exception aborts the rest of the block but keeps mutations made so far. -/
def bindE (x : Except String α × PState) (f : α → PState → Except String β × PState) :
    Except String β × PState :=
  match x with
  | (.ok a, st) => f a st
  | (.error e, st) => (.error e, st)

/-- Modelled from the spec: `utils/helpers.save_to_file` (absent from `src/`)
performs a whole-file overwrite at the given path; a filesystem failure
raises.  The newest binding shadows any earlier content at the same path. -/
def save_to_file (env : Env) (content filepath : String) (st : PState) :
    Except String Unit × PState :=
  match env.disk filepath content with
  | .ok _ => (.ok (), { st with fs := (filepath, content) :: st.fs })
  | .error e => (.error e, st)

/-- Modelled from the spec: `utils/helpers.load_from_file` (absent from
`src/`) reads the current whole-file content at a path. -/
def load_from_file (filepath : String) (st : PState) : String :=
  (st.fs.lookup filepath).getD ""

/-- Modelled from the spec: `TrackingAgent.generate_content` (absent from
`src/`) delegates the prompt to the model client and records one usage
observation per attempted call. -/
def generate_content (env : Env) (prompt : String) (st : PState) :
    Except String String × PState :=
  (env.client st.calls prompt, { st with calls := st.calls + 1 })

/-- Embeds `if self.mcp_client: self.mcp_client.notify(...)` — records the event
when an MCP client is attached, otherwise does nothing. -/
def notify (mcp : Option Unit) (event : String) (st : PState) : PState :=
  match mcp with
  | some _ => { st with notes := st.notes ++ [event] }
  | none => st

/-- Constant `config.api_config.CONJUGATOR_DIR`, as evidenced by the fixed load paths
in `ui/gradio_app.py`. -/
def CONJUGATOR_DIR : String := "generated/conjugator"

/-- Constant `config.api_config.TESTS_DIR`, as evidenced by `ui/gradio_app.py`. -/
def TESTS_DIR : String := "generated/tests"

/-- The prompt built by `CodeGenAgent._generate_conjugator`.  Note the
`design` argument is accepted but not interpolated, exactly as in the source
f-string. -/
def conjugatorPrompt (spec : RequirementSpec) (design : String) : String :=
  let _ := design
  let langs := String.intercalate ", " spec.languages
  let tenses := String.intercalate ", " spec.tenses
  let persons := String.intercalate ", " spec.persons
  let irr := if spec.handle_irregular then "True" else "False"
  "\nGenerate a complete Python module for a verb conjugator with these requirements:\n\nLanguages: "
    ++ langs ++ "\nTenses: " ++ tenses ++ "\nPersons: " ++ persons
    ++ "\nHandle Irregular: " ++ irr
    ++ "\n\nThe code should:\n1. Use mlconjug3 library for conjugations\n2. Have a VerbConjugator class with a conjugate() method\n3. Handle multiple languages and tenses\n4. Return conjugations in a clear format\n5. Include error handling\n6. Be well-commented\n\nReturn ONLY the Python code, no explanations.\n"

/-- The prompt built by `CodeGenAgent._generate_ui`. -/
def uiPrompt (spec : RequirementSpec) : String :=
  let langs := String.intercalate ", " spec.languages
  let tenses := String.intercalate ", " spec.tenses
  "\nGenerate a Gradio UI for a verb conjugator that:\n1. Imports from verb_conjugator module\n2. Has input fields for: verb, language, tense\n3. Displays conjugation results in a clear format\n4. Handles errors gracefully\n5. Is user-friendly\n\nLanguages to support: "
    ++ langs ++ "\nTenses to support: " ++ tenses
    ++ "\n\nReturn ONLY the Python code for the Gradio interface.\n"

/-- Embeds `CodeGenAgent._generate_conjugator`: one model call, clean the code
block, wrap in a `GeneratedCode` with fixed filename `verb_conjugator.py`. -/
def CodeGenAgent.generateConjugator (env : Env) (clean : String → String)
    (spec : RequirementSpec) (design : String) (st : PState) :
    Except String GeneratedCode × PState :=
  bindE (generate_content env (conjugatorPrompt spec design) st) fun code st =>
    (.ok { filename := "verb_conjugator.py", code := clean code,
           description := "Main verb conjugator module",
           dependencies := ["mlconjug3"] }, st)

/-- Embeds `CodeGenAgent._generate_ui`: one model call, clean, wrap with fixed
filename `gradio_ui.py`. -/
def CodeGenAgent.generateUi (env : Env) (clean : String → String)
    (spec : RequirementSpec) (st : PState) :
    Except String GeneratedCode × PState :=
  bindE (generate_content env (uiPrompt spec) st) fun code st =>
    (.ok { filename := "gradio_ui.py", code := clean code,
           description := "Gradio user interface",
           dependencies := ["gradio", "verb_conjugator"] }, st)

/-- The `for gen_code in generated_files: save_to_file(...)` loop in
`CodeGenAgent.generate_code`: each file is written to
`CONJUGATOR_DIR/filename`; an exception aborts the loop. -/
def saveGenerated (env : Env) : List GeneratedCode → PState →
    Except String Unit × PState
  | [], st => (.ok (), st)
  | gc :: rest, st =>
    bindE (save_to_file env gc.code (CONJUGATOR_DIR ++ "/" ++ gc.filename) st) fun _ st =>
      saveGenerated env rest st

/-- Embeds `CodeGenAgent.generate_code`: notify, generate the conjugator module,
generate the UI module, persist both, notify, return the two records. -/
def CodeGenAgent.generate_code (env : Env) (clean : String → String)
    (mcp : Option Unit) (spec : RequirementSpec) (design : String) (st : PState) :
    Except String (List GeneratedCode) × PState :=
  let st := notify mcp "code_generation_started" st
  bindE (CodeGenAgent.generateConjugator env clean spec design st) fun conjugator_code st =>
  bindE (CodeGenAgent.generateUi env clean spec st) fun ui_code st =>
  let generated_files := [conjugator_code, ui_code]
  bindE (saveGenerated env generated_files st) fun _ st =>
  (.ok generated_files, notify mcp "code_generation_completed" st)

/-- The prompt built by `TestAgent.generate_tests`.  It interpolates only
`spec.languages`, `spec.tenses` and `spec.handle_irregular`; the located
conjugator artifact is not referenced. -/
def testsPrompt (spec : RequirementSpec) : String :=
  let langs := String.intercalate ", " spec.languages
  let tenses := String.intercalate ", " spec.tenses
  let irr := if spec.handle_irregular then "True" else "False"
  "\nGenerate comprehensive pytest test cases for a verb conjugator application.\n\nRequirements:\n- Languages: "
    ++ langs ++ "\n- Tenses: " ++ tenses ++ "\n- Test irregular verbs: " ++ irr
    ++ "\n\nGenerate at least 12 test cases that:\n1. Test regular verb conjugations\n2. Test irregular verb conjugations (if applicable)\n3. Test multiple languages\n4. Test multiple tenses\n5. Test error handling (invalid inputs)\n6. Test edge cases\n\nThe tests should:\n- Use pytest framework\n- Import from verb_conjugator module\n- Be well-documented\n- Have clear assertions\n- At least 80 percent should pass\n\nReturn ONLY the Python test code.\n"

/-- The `if "import pytest" not in test_code` guard of
`TestAgent.generate_tests`: force-prepend the fixed import when absent. -/
def ensurePytest (test_code : String) : String :=
  if hasSubstr test_code "import pytest" then test_code
  else "import pytest\n" ++ test_code

/-- Embeds `TestAgent.generate_tests`: notify, locate the conjugator artifact by
substring match (`next(..., None)`), one model call, clean, force the pytest
import, persist the test file, notify, return the test source text. -/
def TestAgent.generate_tests (env : Env) (clean : String → String)
    (mcp : Option Unit) (spec : RequirementSpec)
    (generated_code : List GeneratedCode) (st : PState) :
    Except String String × PState :=
  let st := notify mcp "test_generation_started" st
  let conjugator_code :=
    generated_code.find? (fun gc => hasSubstr gc.filename "conjugator")
  let _ := conjugator_code
  bindE (generate_content env (testsPrompt spec) st) fun raw st =>
  let test_code := ensurePytest (clean raw)
  bindE (save_to_file env test_code (TESTS_DIR ++ "/test_conjugator.py") st) fun _ st =>
  (.ok test_code, notify mcp "test_generation_completed" st)

/-- The step interface the orchestrator composes (`ui/gradio_app.py` calls
each agent through exactly this shape).  Abstracting it lets the orchestrator
theorems quantify over agent behaviour. -/
structure AgentsI where
  parse : String → PState → Except String RequirementSpec × PState
  design : RequirementSpec → PState → Except String String × PState
  gen : RequirementSpec → String → PState → Except String (List GeneratedCode) × PState
  tests : RequirementSpec → List GeneratedCode → PState → Except String String × PState
  save : PState → Except String Unit × PState

/-- Embeds `VerbConjugatorFactoryUI._create_instructions`: fixed markdown built from
the spec fields. -/
def create_instructions (spec : RequirementSpec) : String :=
  let langs := String.intercalate ", " spec.languages
  let tenses := String.intercalate ", " spec.tenses
  let irr := if spec.handle_irregular then "True" else "False"
  "\n# How to Run the Generated Application\n\n## 1. Install Dependencies\npip install mlconjug3 gradio pytest\n\n## 2. Run the Conjugator UI\ncd generated/conjugator\npython gradio_ui.py\n\n## 3. Run the Tests\ncd generated/tests\npytest test_conjugator.py -v\n\n## Application Features\n- Supported Languages: "
    ++ langs ++ "\n- Supported Tenses: " ++ tenses
    ++ "\n- Handles Irregular Verbs: " ++ irr
    ++ "\n\n## Usage\n1. Open the Gradio interface in your browser\n2. Enter a verb to conjugate\n3. Select language and tense\n4. View the conjugation results\n"

/-- The body of the `try:` block of
`VerbConjugatorFactoryUI.generate_application`: the five steps in sequence,
status accumulation, the three file loads and the instruction text. -/
def pipelineTry (env : Env) (ag : AgentsI) (requirements : String) (st : PState) :
    Except String (String × String × String × String × String) × PState :=
  let status := "📝 Parsing requirements..."
  bindE (ag.parse requirements st) fun spec st =>
  let status := status ++ "\n🎨 Creating design..."
  bindE (ag.design spec st) fun design st =>
  let status := status ++ "\n💻 Generating code..."
  bindE (ag.gen spec design st) fun generated_code st =>
  let status := status ++ "\n🧪 Generating tests..."
  bindE (ag.tests spec generated_code st) fun test_code st =>
  let status := status ++ "\n📊 Saving usage report..."
  bindE (ag.save st) fun _ st =>
  let conjugator_code := load_from_file "generated/conjugator/verb_conjugator.py" st
  let ui_code := load_from_file "generated/conjugator/gradio_ui.py" st
  let full_code := "# verb_conjugator.py\n" ++ conjugator_code
    ++ "\n\n# gradio_ui.py\n" ++ ui_code
  let usage_report := load_from_file env.reportPath st
  let instructions := create_instructions spec
  let status := status ++ "\n\n✅ Generation complete!"
  (.ok (status, full_code, test_code, usage_report, instructions), st)

/-- Embeds `VerbConjugatorFactoryUI.generate_application`: the `try` body with the
single top-level `except Exception` converting any raise into
`("❌ Error: " ++ e, "", "", "", "")`. -/
def generate_application (env : Env) (ag : AgentsI) (requirements : String)
    (st : PState) : (String × String × String × String × String) × PState :=
  match pipelineTry env ag requirements st with
  | (.ok out, st) => (out, st)
  | (.error e, st) => (("❌ Error: " ++ e, "", "", "", ""), st)

/-- Modelled from the spec: `ParserAgent.parse_requirements` (absent from
`src/`) builds a fixed instructional prompt embedding the free text, makes
one model call, and interprets the cleaned text as a `RequirementSpec`
through the post-processing function `interp`. -/
def ParserAgent.parse_requirements (env : Env)
    (interp : String → RequirementSpec) (text : String) (st : PState) :
    Except String RequirementSpec × PState :=
  bindE (generate_content env ("Parse the following requirements: " ++ text) st)
    fun raw st => (.ok (interp raw), st)

/-- Modelled from the spec: `DesignAgent.create_design` (absent from `src/`)
is one prompt-construction plus model call producing free-form design text. -/
def DesignAgent.create_design (env : Env) (spec : RequirementSpec) (st : PState) :
    Except String String × PState :=
  bindE (generate_content env ("Create a design for: " ++
      String.intercalate ", " spec.languages) st)
    fun raw st => (.ok raw, st)

/-- Modelled from the spec: `TrackingAgent.save_usage_report` (absent from
`src/`) serializes the accumulated counters to the fixed report file. -/
def TrackingAgent.save_usage_report (env : Env) (st : PState) :
    Except String Unit × PState :=
  save_to_file env (env.reportBody st.calls) env.reportPath st

/-- The concrete agent wiring of `VerbConjugatorFactoryUI.__init__`: the real
code-gen and test agents (no MCP client is attached there), with the
spec-modelled parser, designer and tracker. -/
def mkAgents (env : Env) (clean : String → String)
    (interp : String → RequirementSpec) : AgentsI where
  parse := ParserAgent.parse_requirements env interp
  design := DesignAgent.create_design env
  gen := CodeGenAgent.generate_code env clean none
  tests := TestAgent.generate_tests env clean none
  save := TrackingAgent.save_usage_report env

/-- A verb object of the external `mlconjug3` library: `conjugate(tense)`
returns the person-to-form mapping for a tense (empty models a falsy result)
or raises. -/
structure MLVerb where
  conj : String → Except String (List (String × String))

/-- The external `mlconjug3.Conjugator`: `get_verb(verb)` returns a verb
object, a falsy result (`none`), or raises. -/
structure MLConjugator where
  get_verb : String → Except String (Option MLVerb)

/-- Structure `VerbConjugator` (from `generated/conjugator/verb_conjugator.py`):
`conjugator` is `none` when `Conjugator(language)` raised in `__init__`. -/
structure VerbConjugator where
  language : String
  conjugator : Option MLConjugator

/-- The `supported_tenses` dict of `VerbConjugator.conjugate`, in insertion
order. -/
def supported_tenses : List (String × String) :=
  [("present", "indicatif présent"),
   ("imperfect", "indicatif imparfait"),
   ("future", "indicatif futur simple")]

/-- The `supported_persons` dict of `VerbConjugator.conjugate`, in insertion
order. -/
def supported_persons : List (String × String) :=
  [("first_singular", "je"), ("second_singular", "tu"),
   ("third_singular", "il"), ("first_plural", "nous"),
   ("second_plural", "vous"), ("third_plural", "ils")]

/-- Embeds the Python `str.lower()` call as used on the ASCII tense and person keys. -/
def lower (s : String) : String := ⟨s.data.map Char.toLower⟩

/-- The inner `try` of the person loop in `VerbConjugator.conjugate`:
look the verb up, conjugate the tense, extract the person; any raise is
caught and recorded as `"Error"`; a falsy verb object skips the person
(`continue`); a missing person yields `"Not found"`. -/
def personEntry (m : MLConjugator) (verb tense person : String) :
    Option (String × String) :=
  match m.get_verb verb with
  | .error _ => some (person, "Error")
  | .ok none => none
  | .ok (some vb) =>
    match vb.conj tense with
    | .error _ => some (person, "Error")
    | .ok all_persons_for_tense =>
      match all_persons_for_tense with
      | [] => some (person, "Not found")
      | _ :: _ =>
        match all_persons_for_tense.lookup person with
        | some form => some (person, form)
        | none => some (person, "Not found")

/-- The tense loop body of `VerbConjugator.conjugate`: build the per-tense
dict over the selected persons, and add it only when non-empty. -/
def tenseStep (m : MLConjugator) (verb : String) (selected_persons : List String)
    (acc : List (String × List (String × String))) (tense : String) :
    List (String × List (String × String)) :=
  let tense_conjugations :=
    selected_persons.filterMap (fun person => personEntry m verb tense person)
  match tense_conjugations with
  | [] => acc
  | _ :: _ => acc ++ [(tense, tense_conjugations)]

/-- Embeds `VerbConjugator.conjugate`: raises `ValueError` when the underlying
conjugator failed to initialize; otherwise filters the requested tense and
person names through the supported dicts (silently dropping unknown ones)
and builds the nested conjugation dict.  All exceptions of the loop body are
caught inside the loop. -/
def VerbConjugator.conjugate (vc : VerbConjugator) (verb : String)
    (tenses : Option (List String)) (persons : Option (List String)) :
    Except String (List (String × List (String × String))) :=
  match vc.conjugator with
  | none => .error ("Conjugator not initialized for language "
      ++ vc.language ++ ". Please check initialization.")
  | some m =>
    let selected_tenses :=
      match tenses with
      | none => supported_tenses.map Prod.snd
      | some ts => ts.filterMap (fun t => supported_tenses.lookup (lower t))
    let selected_persons :=
      match persons with
      | none => supported_persons.map Prod.snd
      | some ps => ps.filterMap (fun p => supported_persons.lookup (lower p))
    .ok (selected_tenses.foldl (tenseStep m verb selected_persons) [])

/-- Instrumented agent wiring: identical to `base` except that each step
records its own label in `notes` at the moment it is invoked.  Used to
observe which steps the orchestrator invokes, and in which order. -/
def taggedAgents (base : AgentsI) : AgentsI where
  parse := fun a st => base.parse a { st with notes := st.notes ++ ["parse_requirements"] }
  design := fun a st => base.design a { st with notes := st.notes ++ ["create_design"] }
  gen := fun a b st => base.gen a b { st with notes := st.notes ++ ["generate_code"] }
  tests := fun a b st => base.tests a b { st with notes := st.notes ++ ["generate_tests"] }
  save := fun st => base.save { st with notes := st.notes ++ ["save_usage_report"] }

/-- Concrete environment where every model call and disk write succeeds. -/
def envOk : Env where
  client := fun _ _ => .ok "print(1)"
  disk := fun _ _ => .ok ()
  reportPath := "usage_report.json"
  reportBody := fun _ => "report"

/-- Concrete environment whose model client always raises. -/
def envFail : Env where
  client := fun _ _ => .error "quota exceeded"
  disk := fun _ _ => .ok ()
  reportPath := "usage_report.json"
  reportBody := fun _ => "report"

/-- Concrete environment whose second model call (index 1) raises. -/
def envFailSecond : Env where
  client := fun n _ => if n = 1 then .error "quota exceeded" else .ok "print(1)"
  disk := fun _ _ => .ok ()
  reportPath := "usage_report.json"
  reportBody := fun _ => "report"

/-- Concrete requirement specification for witnesses. -/
def specW : RequirementSpec where
  languages := ["French"]
  tenses := ["present"]
  persons := ["first_singular"]
  handle_irregular := true

/-- Fresh process state for witnesses. -/
def stW : PState where
  calls := 0
  fs := []
  notes := []

/-- Agent set whose steps never raise and never touch `notes`, for the
orchestrator witnesses. -/
def baseW : AgentsI where
  parse := fun _ st => (.ok specW, st)
  design := fun _ st => (.ok "design", st)
  gen := fun _ _ st => (.ok [], st)
  tests := fun _ _ st => (.ok "tests", st)
  save := fun st => (.ok (), st)

/-- Agent set whose code-generation step raises, for the orchestrator error
witness. -/
def baseFailGen : AgentsI where
  parse := fun _ st => (.ok specW, st)
  design := fun _ st => (.ok "design", st)
  gen := fun _ _ st => (.error "model call failed", st)
  tests := fun _ _ st => (.ok "tests", st)
  save := fun st => (.ok (), st)

/-- An `mlconjug3` model where every verb lookup and conjugation succeeds
with a fixed one-entry table. -/
def mlW : MLConjugator where
  get_verb := fun _ => .ok (some ⟨fun _ => .ok [("je", "parle")]⟩)

theorem headMatch_append (l rest : List Char) : headMatch l (l ++ rest) = true := by
  induction l with
  | nil => rfl
  | cons a as ih => simp [headMatch, ih]

theorem subAt_nil (s : List Char) : subAt [] s = true := by
  cases s <;> simp [subAt, headMatch]

theorem subAt_append (pat rest : List Char) : subAt pat (pat ++ rest) = true := by
  cases pat with
  | nil => exact subAt_nil rest
  | cons a as =>
    simp only [List.cons_append, subAt, Bool.or_eq_true]
    exact Or.inl (headMatch_append (a :: as) rest)

theorem hasSubstr_of_data (s pat : String) (rest : List Char)
    (h : s.data = pat.data ++ rest) : hasSubstr s pat = true := by
  unfold hasSubstr
  rw [h]
  exact subAt_append pat.data rest

theorem pytest_prepend_contains (t : String) :
    hasSubstr ("import pytest\n" ++ t) "import pytest" = true := by
  apply hasSubstr_of_data _ _ ('\n' :: t.data)
  rw [String.data_append]
  have h : ("import pytest\n" : String).data
      = ("import pytest" : String).data ++ ['\n'] := by decide
  rw [h, List.append_assoc]
  rfl

theorem ensurePytest_contains (t : String) :
    hasSubstr (ensurePytest t) "import pytest" = true := by
  unfold ensurePytest
  by_cases h : hasSubstr t "import pytest" = true
  · rw [if_pos h]; exact h
  · rw [if_neg h]; exact pytest_prepend_contains t

theorem notify_calls (mcp : Option Unit) (e : String) (st : PState) :
    (notify mcp e st).calls = st.calls := by
  cases mcp <;> rfl

theorem notify_fs (mcp : Option Unit) (e : String) (st : PState) :
    (notify mcp e st).fs = st.fs := by
  cases mcp <;> rfl

theorem conj_path_eq :
    CONJUGATOR_DIR ++ "/" ++ ("verb_conjugator.py" : String)
      = "generated/conjugator/verb_conjugator.py" := by decide

theorem ui_path_eq :
    CONJUGATOR_DIR ++ "/" ++ ("gradio_ui.py" : String)
      = "generated/conjugator/gradio_ui.py" := by decide

theorem tests_path_eq :
    TESTS_DIR ++ ("/test_conjugator.py" : String)
      = "generated/tests/test_conjugator.py" := by decide

/-- C8: for a fixed spec and fixed model-client behaviour,
`TestAgent.generate_tests` returns and persists the same text for every
value of the `generated_code` argument: the artifact located by the
substring lookup is never referenced afterwards. -/
theorem generate_tests_ignores_generated_code (env : Env) (clean : String → String)
    (mcp : Option Unit) (spec : RequirementSpec) (st : PState)
    (gcs gcs' : List GeneratedCode) :
    TestAgent.generate_tests env clean mcp spec gcs st =
      TestAgent.generate_tests env clean mcp spec gcs' st := rfl

/-- C2: whenever its two model calls succeed and the two writes succeed,
`CodeGenAgent.generate_code` returns exactly two `GeneratedCode` records,
the first with filename `verb_conjugator.py` and the second with filename
`gradio_ui.py`, for every requirement and design specification. -/
theorem generate_code_two_artifacts (env : Env) (clean : String → String)
    (mcp : Option Unit) (spec : RequirementSpec) (design : String) (st : PState)
    (r1 r2 : String)
    (h1 : env.client st.calls (conjugatorPrompt spec design) = .ok r1)
    (h2 : env.client (st.calls + 1) (uiPrompt spec) = .ok r2)
    (hd1 : env.disk "generated/conjugator/verb_conjugator.py" (clean r1) = .ok ())
    (hd2 : env.disk "generated/conjugator/gradio_ui.py" (clean r2) = .ok ()) :
    (CodeGenAgent.generate_code env clean mcp spec design st).1 =
      .ok [{ filename := "verb_conjugator.py", code := clean r1,
             description := "Main verb conjugator module",
             dependencies := ["mlconjug3"] },
           { filename := "gradio_ui.py", code := clean r2,
             description := "Gradio user interface",
             dependencies := ["gradio", "verb_conjugator"] }] := by
  cases mcp <;>
    simp [CodeGenAgent.generate_code, CodeGenAgent.generateConjugator,
      CodeGenAgent.generateUi, generate_content, bindE, saveGenerated,
      save_to_file, notify, h1, h2, conj_path_eq, ui_path_eq, hd1, hd2]

/-- C2 witness: concrete successful environment. -/
theorem generate_code_two_artifacts_witness :
    (CodeGenAgent.generate_code envOk id none specW "design" stW).1 =
      .ok [{ filename := "verb_conjugator.py", code := "print(1)",
             description := "Main verb conjugator module",
             dependencies := ["mlconjug3"] },
           { filename := "gradio_ui.py", code := "print(1)",
             description := "Gradio user interface",
             dependencies := ["gradio", "verb_conjugator"] }] :=
  generate_code_two_artifacts envOk id none specW "design" stW
    "print(1)" "print(1)" rfl rfl rfl rfl

/-- C4: whenever the model call and the write succeed, the text returned by
`TestAgent.generate_tests` (and the text persisted at the fixed test path)
contains `import pytest`, and when the cleaned model output lacks it the
returned text is exactly that import line, a newline, then the cleaned
output. -/
theorem generate_tests_pytest_import (env : Env) (clean : String → String)
    (mcp : Option Unit) (spec : RequirementSpec) (gcs : List GeneratedCode)
    (st : PState) (r : String)
    (hc : env.client st.calls (testsPrompt spec) = .ok r)
    (hd : env.disk "generated/tests/test_conjugator.py" (ensurePytest (clean r)) = .ok ()) :
    (TestAgent.generate_tests env clean mcp spec gcs st).1 = .ok (ensurePytest (clean r))
    ∧ load_from_file "generated/tests/test_conjugator.py"
        (TestAgent.generate_tests env clean mcp spec gcs st).2 = ensurePytest (clean r)
    ∧ hasSubstr (ensurePytest (clean r)) "import pytest" = true
    ∧ (hasSubstr (clean r) "import pytest" = false →
        ensurePytest (clean r) = "import pytest\n" ++ clean r) := by
  refine ⟨?_, ?_, ensurePytest_contains (clean r), ?_⟩
  · cases mcp <;>
      simp [TestAgent.generate_tests, generate_content, bindE, save_to_file,
        notify, hc, tests_path_eq, hd]
  · cases mcp <;>
      simp [TestAgent.generate_tests, generate_content, bindE, save_to_file,
        notify, hc, tests_path_eq, hd, load_from_file, List.lookup]
  · intro h
    unfold ensurePytest
    rw [if_neg (by simp [h])]

/-- C4 witness: concrete successful environment; the cleaned model output
`print(1)` lacks the import, so it is force-prepended. -/
theorem generate_tests_pytest_import_witness :
    (TestAgent.generate_tests envOk id none specW [] stW).1 =
      .ok (ensurePytest "print(1)") :=
  (generate_tests_pytest_import envOk id none specW [] stW "print(1)" rfl rfl).1

/-- C3: when no generated artifact filename contains the substring
`conjugator`, the lookup inside `TestAgent.generate_tests` yields `none` and
the operation still completes normally (no exception from the lookup). -/
theorem generate_tests_lookup_miss_safe (env : Env) (clean : String → String)
    (mcp : Option Unit) (spec : RequirementSpec) (gcs : List GeneratedCode)
    (st : PState) (r : String)
    (hnone : ∀ gc ∈ gcs, hasSubstr gc.filename "conjugator" = false)
    (hc : env.client st.calls (testsPrompt spec) = .ok r)
    (hd : env.disk "generated/tests/test_conjugator.py" (ensurePytest (clean r)) = .ok ()) :
    gcs.find? (fun gc => hasSubstr gc.filename "conjugator") = none
    ∧ (TestAgent.generate_tests env clean mcp spec gcs st).1 =
        .ok (ensurePytest (clean r)) := by
  constructor
  · exact List.find?_eq_none.mpr (fun gc hgc => by simp [hnone gc hgc])
  · cases mcp <;>
      simp [TestAgent.generate_tests, generate_content, bindE, save_to_file,
        notify, hc, tests_path_eq, hd]

/-- C3 witness: a single artifact named `main.py`, which does not contain
the substring `conjugator`. -/
theorem generate_tests_lookup_miss_safe_witness :
    ([({ filename := "main.py", code := "", description := "",
         dependencies := [] } : GeneratedCode)].find?
        (fun gc => hasSubstr gc.filename "conjugator") = none)
    ∧ (TestAgent.generate_tests envOk id none specW
        [{ filename := "main.py", code := "", description := "",
           dependencies := [] }] stW).1 = .ok (ensurePytest "print(1)") :=
  generate_tests_lookup_miss_safe envOk id none specW
    [{ filename := "main.py", code := "", description := "", dependencies := [] }]
    stW "print(1)" (by decide) rfl rfl

/-- C6: inside `CodeGenAgent.generate_code` an exception from either model
call or either file write propagates out with its message unchanged; exactly
the calls already attempted are counted (no retry) and the result is the
propagated error, not a partial list. -/
theorem generate_code_error_propagation (env : Env) (clean : String → String)
    (mcp : Option Unit) (spec : RequirementSpec) (design : String) (st : PState)
    (e : String) :
    (env.client st.calls (conjugatorPrompt spec design) = .error e →
      (CodeGenAgent.generate_code env clean mcp spec design st).1 = .error e
      ∧ (CodeGenAgent.generate_code env clean mcp spec design st).2.calls = st.calls + 1)
    ∧ (∀ r1, env.client st.calls (conjugatorPrompt spec design) = .ok r1 →
        env.client (st.calls + 1) (uiPrompt spec) = .error e →
        (CodeGenAgent.generate_code env clean mcp spec design st).1 = .error e
        ∧ (CodeGenAgent.generate_code env clean mcp spec design st).2.calls = st.calls + 2)
    ∧ (∀ r1 r2, env.client st.calls (conjugatorPrompt spec design) = .ok r1 →
        env.client (st.calls + 1) (uiPrompt spec) = .ok r2 →
        env.disk "generated/conjugator/verb_conjugator.py" (clean r1) = .error e →
        (CodeGenAgent.generate_code env clean mcp spec design st).1 = .error e)
    ∧ (∀ r1 r2, env.client st.calls (conjugatorPrompt spec design) = .ok r1 →
        env.client (st.calls + 1) (uiPrompt spec) = .ok r2 →
        env.disk "generated/conjugator/verb_conjugator.py" (clean r1) = .ok () →
        env.disk "generated/conjugator/gradio_ui.py" (clean r2) = .error e →
        (CodeGenAgent.generate_code env clean mcp spec design st).1 = .error e) := by
  refine ⟨?_, ?_, ?_, ?_⟩
  · intro h1
    cases mcp <;>
      simp [CodeGenAgent.generate_code, CodeGenAgent.generateConjugator,
        CodeGenAgent.generateUi, generate_content, bindE, saveGenerated,
        save_to_file, notify, h1]
  · intro r1 h1 h2
    cases mcp <;>
      simp [CodeGenAgent.generate_code, CodeGenAgent.generateConjugator,
        CodeGenAgent.generateUi, generate_content, bindE, saveGenerated,
        save_to_file, notify, h1, h2]
  · intro r1 r2 h1 h2 hd1
    cases mcp <;>
      simp [CodeGenAgent.generate_code, CodeGenAgent.generateConjugator,
        CodeGenAgent.generateUi, generate_content, bindE, saveGenerated,
        save_to_file, notify, h1, h2, conj_path_eq, hd1]
  · intro r1 r2 h1 h2 hd1 hd2
    cases mcp <;>
      simp [CodeGenAgent.generate_code, CodeGenAgent.generateConjugator,
        CodeGenAgent.generateUi, generate_content, bindE, saveGenerated,
        save_to_file, notify, h1, h2, conj_path_eq, hd1, ui_path_eq, hd2]

/-- C6 witness: a client whose first call raises; the error surfaces
unchanged after exactly one attempted call. -/
theorem generate_code_error_propagation_witness :
    (CodeGenAgent.generate_code envFail id none specW "design" stW).1 =
      .error "quota exceeded"
    ∧ (CodeGenAgent.generate_code envFail id none specW "design" stW).2.calls =
        stW.calls + 1 :=
  (generate_code_error_propagation envFail id none specW "design" stW
    "quota exceeded").1 rfl

/-- C9: both model calls complete before any file write begins, so if either
model call raises, the filesystem is exactly as before the call and no
generated file has been written. -/
theorem generate_code_no_partial_writes (env : Env) (clean : String → String)
    (mcp : Option Unit) (spec : RequirementSpec) (design : String) (st : PState)
    (e : String) :
    (env.client st.calls (conjugatorPrompt spec design) = .error e →
      (CodeGenAgent.generate_code env clean mcp spec design st).2.fs = st.fs
      ∧ ∃ e', (CodeGenAgent.generate_code env clean mcp spec design st).1 = .error e')
    ∧ (∀ r1, env.client st.calls (conjugatorPrompt spec design) = .ok r1 →
        env.client (st.calls + 1) (uiPrompt spec) = .error e →
        (CodeGenAgent.generate_code env clean mcp spec design st).2.fs = st.fs
        ∧ ∃ e', (CodeGenAgent.generate_code env clean mcp spec design st).1 = .error e') := by
  constructor
  · intro h1
    cases mcp <;>
      simp [CodeGenAgent.generate_code, CodeGenAgent.generateConjugator,
        CodeGenAgent.generateUi, generate_content, bindE, saveGenerated,
        save_to_file, notify, h1]
  · intro r1 h1 h2
    cases mcp <;>
      simp [CodeGenAgent.generate_code, CodeGenAgent.generateConjugator,
        CodeGenAgent.generateUi, generate_content, bindE, saveGenerated,
        save_to_file, notify, h1, h2]

/-- C9 witness: the second model call raises; no file is written. -/
theorem generate_code_no_partial_writes_witness :
    (CodeGenAgent.generate_code envFailSecond id none specW "design" stW).2.fs = stW.fs
    ∧ ∃ e', (CodeGenAgent.generate_code envFailSecond id none specW "design" stW).1 =
        .error e' :=
  (generate_code_no_partial_writes envFailSecond id none specW "design" stW
    "quota exceeded").2 "print(1)" rfl rfl

theorem bindE_ok {α β : Type} (x : Except String α × PState)
    (f : α → PState → Except String β × PState) (b : β) (st' : PState)
    (h : bindE x f = (.ok b, st')) :
    ∃ a s, x = (.ok a, s) ∧ f a s = (.ok b, st') := by
  rcases x with ⟨r, s⟩
  cases r with
  | ok a => exact ⟨a, s, rfl, h⟩
  | error e => simp [bindE] at h

/-- C1: `generate_application` always returns a 5-tuple of strings by
construction; whenever any step of the `try` body raises, the returned
tuple has a non-empty error string first and four empty strings after it. -/
theorem generate_application_error_shape (env : Env) (ag : AgentsI)
    (req : String) (st st' : PState) (e : String)
    (h : pipelineTry env ag req st = (.error e, st')) :
    generate_application env ag req st = (("❌ Error: " ++ e, "", "", "", ""), st')
    ∧ ("❌ Error: " ++ e) ≠ "" := by
  constructor
  · unfold generate_application
    rw [h]
  · intro hc
    have hlen := congrArg String.length hc
    simp [String.length_append] at hlen
    exact absurd hlen.1 (by decide)

/-- C1 witness: the code-generation step raises; the orchestrator returns
the error tuple with empty payloads. -/
theorem generate_application_error_shape_witness :
    generate_application envOk baseFailGen "make a conjugator" stW =
      (("❌ Error: " ++ "model call failed", "", "", "", ""), stW)
    ∧ ("❌ Error: " ++ "model call failed") ≠ "" :=
  generate_application_error_shape envOk baseFailGen "make a conjugator" stW stW
    "model call failed" rfl

/-- C5: on any successful run the orchestrator invokes exactly the five
steps parse → design → code generation → test generation → usage-report
saving, each exactly once and in that order: instrumenting each step to log
its label (while the steps themselves do not touch the log) always yields
exactly that five-label trace. -/
theorem pipeline_steps_in_order (env : Env) (base : AgentsI) (req : String)
    (st st' : PState) (out : String × String × String × String × String)
    (hp : ∀ a s, (base.parse a s).2.notes = s.notes)
    (hd : ∀ a s, (base.design a s).2.notes = s.notes)
    (hg : ∀ a b s, (base.gen a b s).2.notes = s.notes)
    (ht : ∀ a b s, (base.tests a b s).2.notes = s.notes)
    (hs : ∀ s, (base.save s).2.notes = s.notes)
    (hrun : pipelineTry env (taggedAgents base) req st = (.ok out, st')) :
    st'.notes = st.notes ++ ["parse_requirements", "create_design",
      "generate_code", "generate_tests", "save_usage_report"] := by
  dsimp only [pipelineTry, taggedAgents] at hrun
  obtain ⟨spec, s1, h1, hrun⟩ := bindE_ok _ _ _ _ hrun
  obtain ⟨design, s2, h2, hrun⟩ := bindE_ok _ _ _ _ hrun
  obtain ⟨gcs, s3, h3, hrun⟩ := bindE_ok _ _ _ _ hrun
  obtain ⟨tc, s4, h4, hrun⟩ := bindE_ok _ _ _ _ hrun
  obtain ⟨u, s5, h5, hrun⟩ := bindE_ok _ _ _ _ hrun
  have hst : st' = s5 := by
    have h := congrArg Prod.snd hrun
    simpa using h.symm
  have n1 : s1.notes = st.notes ++ ["parse_requirements"] := by
    have h := hp req { st with notes := st.notes ++ ["parse_requirements"] }
    rw [h1] at h
    simpa using h
  have n2 : s2.notes = s1.notes ++ ["create_design"] := by
    have h := hd spec { s1 with notes := s1.notes ++ ["create_design"] }
    rw [h2] at h
    simpa using h
  have n3 : s3.notes = s2.notes ++ ["generate_code"] := by
    have h := hg spec design { s2 with notes := s2.notes ++ ["generate_code"] }
    rw [h3] at h
    simpa using h
  have n4 : s4.notes = s3.notes ++ ["generate_tests"] := by
    have h := ht spec gcs { s3 with notes := s3.notes ++ ["generate_tests"] }
    rw [h4] at h
    simpa using h
  have n5 : s5.notes = s4.notes ++ ["save_usage_report"] := by
    have h := hs { s4 with notes := s4.notes ++ ["save_usage_report"] }
    rw [h5] at h
    simpa using h
  rw [hst, n5, n4, n3, n2, n1]
  simp

/-- C5 witness: the benign concrete agents produce exactly the five-label
trace from a fresh state. -/
theorem pipeline_steps_in_order_witness :
    (⟨0, [], ["parse_requirements", "create_design", "generate_code",
       "generate_tests", "save_usage_report"]⟩ : PState).notes =
      stW.notes ++ ["parse_requirements", "create_design", "generate_code",
        "generate_tests", "save_usage_report"] :=
  pipeline_steps_in_order envOk baseW "make a conjugator" stW
    ⟨0, [], ["parse_requirements", "create_design", "generate_code",
      "generate_tests", "save_usage_report"]⟩ _
    (fun _ _ => rfl) (fun _ _ => rfl) (fun _ _ _ => rfl) (fun _ _ _ => rfl)
    (fun _ => rfl) rfl

theorem foldl_tenseStep_nil (m : MLConjugator) (verb : String)
    (l : List String) (acc : List (String × List (String × String))) :
    l.foldl (tenseStep m verb []) acc = acc := by
  induction l generalizing acc with
  | nil => rfl
  | cons t ts ih => simp [List.foldl, tenseStep, ih]

/-- C10: `VerbConjugator.conjugate` raises exactly when the underlying
conjugator failed to initialize; with a live conjugator it never raises, and
tense or person requests that survive the supported-name filter empty
(only unsupported names) produce an empty dictionary rather than an error. -/
theorem conjugate_valueerror_iff_uninitialized (vc : VerbConjugator)
    (verb : String) (tenses persons : Option (List String)) :
    (vc.conjugator = none →
      ∃ e, vc.conjugate verb tenses persons = .error e)
    ∧ (∀ m, vc.conjugator = some m →
        ∃ d, vc.conjugate verb tenses persons = .ok d)
    ∧ (∀ m ts, vc.conjugator = some m →
        (∀ t ∈ ts, supported_tenses.lookup (lower t) = none) →
        vc.conjugate verb (some ts) persons = .ok [])
    ∧ (∀ m ps, vc.conjugator = some m →
        (∀ p ∈ ps, supported_persons.lookup (lower p) = none) →
        vc.conjugate verb tenses (some ps) = .ok []) := by
  refine ⟨?_, ?_, ?_, ?_⟩
  · intro hm
    unfold VerbConjugator.conjugate
    rw [hm]
    exact ⟨_, rfl⟩
  · intro m hm
    unfold VerbConjugator.conjugate
    rw [hm]
    exact ⟨_, rfl⟩
  · intro m ts hm hts
    unfold VerbConjugator.conjugate
    rw [hm]
    have hsel : ts.filterMap (fun t => supported_tenses.lookup (lower t)) = [] :=
      List.filterMap_eq_nil_iff.mpr hts
    simp [hsel]
  · intro m ps hm hps
    unfold VerbConjugator.conjugate
    rw [hm]
    have hsel : ps.filterMap (fun p => supported_persons.lookup (lower p)) = [] :=
      List.filterMap_eq_nil_iff.mpr hps
    simp [hsel, foldl_tenseStep_nil]

/-- C10 witness: an uninitialized conjugator raises; an initialized one
returns a dictionary, and returns the empty dictionary when only the
unsupported tense `past_perfect` or only the unsupported person `me` is
requested. -/
theorem conjugate_valueerror_iff_uninitialized_witness :
    (∃ e, (VerbConjugator.mk "fr" none).conjugate "parler" none none = .error e)
    ∧ (∃ d, (VerbConjugator.mk "fr" (some mlW)).conjugate "parler" none none = .ok d)
    ∧ ((VerbConjugator.mk "fr" (some mlW)).conjugate "parler"
        (some ["past_perfect"]) none = .ok [])
    ∧ ((VerbConjugator.mk "fr" (some mlW)).conjugate "parler"
        none (some ["me"]) = .ok []) :=
  ⟨(conjugate_valueerror_iff_uninitialized (VerbConjugator.mk "fr" none)
      "parler" none none).1 rfl,
   (conjugate_valueerror_iff_uninitialized (VerbConjugator.mk "fr" (some mlW))
      "parler" none none).2.1 mlW rfl,
   (conjugate_valueerror_iff_uninitialized (VerbConjugator.mk "fr" (some mlW))
      "parler" (some ["past_perfect"]) none).2.2.1 mlW ["past_perfect"] rfl
      (by decide),
   (conjugate_valueerror_iff_uninitialized (VerbConjugator.mk "fr" (some mlW))
      "parler" none (some ["me"])).2.2.2 mlW ["me"] rfl (by decide)⟩

theorem generate_content_ok (env : Env) (prompt : String) (st st' : PState)
    (r : String) (h : generate_content env prompt st = (.ok r, st')) :
    env.client st.calls prompt = .ok r
    ∧ st' = { st with calls := st.calls + 1 } := by
  unfold generate_content at h
  injection h with h1 h2
  exact ⟨h1, h2.symm⟩

theorem save_to_file_ok (env : Env) (content path : String) (st st' : PState)
    (u : Unit) (h : save_to_file env content path st = (.ok u, st')) :
    st' = { st with fs := (path, content) :: st.fs } := by
  unfold save_to_file at h
  split at h
  · injection h with h1 h2
    exact h2.symm
  · injection h with h1 h2
    exact Except.noConfusion h1

theorem generateConjugator_ok (env : Env) (clean : String → String)
    (spec : RequirementSpec) (design : String) (st st' : PState)
    (gc : GeneratedCode)
    (h : CodeGenAgent.generateConjugator env clean spec design st = (.ok gc, st')) :
    ∃ r, env.client st.calls (conjugatorPrompt spec design) = .ok r
      ∧ gc = { filename := "verb_conjugator.py", code := clean r,
               description := "Main verb conjugator module",
               dependencies := ["mlconjug3"] }
      ∧ st' = { st with calls := st.calls + 1 } := by
  unfold CodeGenAgent.generateConjugator at h
  obtain ⟨r, s, h1, h2⟩ := bindE_ok _ _ _ _ h
  obtain ⟨hc, hs⟩ := generate_content_ok _ _ _ _ _ h1
  injection h2 with hA hB
  injection hA with hA'
  exact ⟨r, hc, hA'.symm, by rw [← hB, hs]⟩

theorem generateUi_ok (env : Env) (clean : String → String)
    (spec : RequirementSpec) (st st' : PState) (gc : GeneratedCode)
    (h : CodeGenAgent.generateUi env clean spec st = (.ok gc, st')) :
    ∃ r, env.client st.calls (uiPrompt spec) = .ok r
      ∧ gc = { filename := "gradio_ui.py", code := clean r,
               description := "Gradio user interface",
               dependencies := ["gradio", "verb_conjugator"] }
      ∧ st' = { st with calls := st.calls + 1 } := by
  unfold CodeGenAgent.generateUi at h
  obtain ⟨r, s, h1, h2⟩ := bindE_ok _ _ _ _ h
  obtain ⟨hc, hs⟩ := generate_content_ok _ _ _ _ _ h1
  injection h2 with hA hB
  injection hA with hA'
  exact ⟨r, hc, hA'.symm, by rw [← hB, hs]⟩

theorem saveGenerated_pair_ok (env : Env) (gc1 gc2 : GeneratedCode)
    (st st' : PState) (u : Unit)
    (h : saveGenerated env [gc1, gc2] st = (.ok u, st')) :
    st' = { st with fs := (CONJUGATOR_DIR ++ "/" ++ gc2.filename, gc2.code) ::
                          (CONJUGATOR_DIR ++ "/" ++ gc1.filename, gc1.code) ::
                          st.fs } := by
  unfold saveGenerated at h
  obtain ⟨u1, s1, hs1, h⟩ := bindE_ok _ _ _ _ h
  have e1 := save_to_file_ok _ _ _ _ _ _ hs1
  obtain ⟨u2, s2, hs2, h⟩ := bindE_ok _ _ _ _ h
  have e2 := save_to_file_ok _ _ _ _ _ _ hs2
  injection h with h1 h2
  rw [← h2, e2, e1]

theorem parse_requirements_ok (env : Env) (interp : String → RequirementSpec)
    (text : String) (st st' : PState) (spec : RequirementSpec)
    (h : ParserAgent.parse_requirements env interp text st = (.ok spec, st')) :
    st'.fs = st.fs := by
  unfold ParserAgent.parse_requirements at h
  obtain ⟨r, s, h1, h2⟩ := bindE_ok _ _ _ _ h
  obtain ⟨hc, hs⟩ := generate_content_ok _ _ _ _ _ h1
  injection h2 with hA hB
  rw [← hB, hs]

theorem create_design_ok (env : Env) (spec : RequirementSpec)
    (st st' : PState) (design : String)
    (h : DesignAgent.create_design env spec st = (.ok design, st')) :
    st'.fs = st.fs := by
  unfold DesignAgent.create_design at h
  obtain ⟨r, s, h1, h2⟩ := bindE_ok _ _ _ _ h
  obtain ⟨hc, hs⟩ := generate_content_ok _ _ _ _ _ h1
  injection h2 with hA hB
  rw [← hB, hs]

theorem generate_code_fs_ok (env : Env) (clean : String → String)
    (spec : RequirementSpec) (design : String) (st st' : PState)
    (gcs : List GeneratedCode)
    (h : CodeGenAgent.generate_code env clean none spec design st = (.ok gcs, st')) :
    ∃ c u,
      gcs = [{ filename := "verb_conjugator.py", code := c,
               description := "Main verb conjugator module",
               dependencies := ["mlconjug3"] },
             { filename := "gradio_ui.py", code := u,
               description := "Gradio user interface",
               dependencies := ["gradio", "verb_conjugator"] }]
      ∧ st'.fs = ("generated/conjugator/gradio_ui.py", u) ::
                 ("generated/conjugator/verb_conjugator.py", c) :: st.fs := by
  unfold CodeGenAgent.generate_code at h
  obtain ⟨gc1, s1, hconj, h⟩ := bindE_ok _ _ _ _ h
  obtain ⟨r1, hc1, hgc1, hs1⟩ := generateConjugator_ok _ _ _ _ _ _ _ hconj
  obtain ⟨gc2, s2, hui, h⟩ := bindE_ok _ _ _ _ h
  obtain ⟨r2, hc2, hgc2, hs2⟩ := generateUi_ok _ _ _ _ _ _ hui
  obtain ⟨u3, s3, hsv, h⟩ := bindE_ok _ _ _ _ h
  have e3 := saveGenerated_pair_ok _ _ _ _ _ _ hsv
  injection h with hA hB
  injection hA with hA'
  refine ⟨clean r1, clean r2, ?_, ?_⟩
  · rw [← hA', hgc1, hgc2]
  · rw [← hB]
    subst hgc1 hgc2
    simp [notify, e3, hs2, hs1, conj_path_eq, ui_path_eq]

theorem generate_tests_fs_ok (env : Env) (clean : String → String)
    (spec : RequirementSpec) (gcs : List GeneratedCode) (st st' : PState)
    (tc : String)
    (h : TestAgent.generate_tests env clean none spec gcs st = (.ok tc, st')) :
    st'.fs = ("generated/tests/test_conjugator.py", tc) :: st.fs := by
  unfold TestAgent.generate_tests at h
  obtain ⟨r, s1, h1, h⟩ := bindE_ok _ _ _ _ h
  obtain ⟨hc, hs1⟩ := generate_content_ok _ _ _ _ _ h1
  obtain ⟨u2, s2, h2, h⟩ := bindE_ok _ _ _ _ h
  have e2 := save_to_file_ok _ _ _ _ _ _ h2
  injection h with hA hB
  injection hA with hA'
  rw [← hB]
  simp [notify, e2, hs1, tests_path_eq, hA']

theorem save_usage_fs_ok (env : Env) (st st' : PState) (u : Unit)
    (h : TrackingAgent.save_usage_report env st = (.ok u, st')) :
    st'.fs = (env.reportPath, env.reportBody st.calls) :: st.fs := by
  unfold TrackingAgent.save_usage_report at h
  rw [save_to_file_ok _ _ _ _ _ _ h]

/-- C7: on any successful run of the concrete pipeline, each persisted file
is written at its fixed path and the content found there afterwards is
exactly the content of this run (and the code bundle returned to the caller is
built from exactly those contents).  Since the starting state `st` is
arbitrary, taking it to be the final state of any earlier successful run
shows that the second of two sequential runs fully overwrites the files of
the first, with no residual content surviving at those paths. -/
theorem second_run_overwrites (env : Env) (clean : String → String)
    (interp : String → RequirementSpec) (req : String) (st st₂ : PState)
    (out : String × String × String × String × String)
    (hne1 : env.reportPath ≠ "generated/conjugator/verb_conjugator.py")
    (hne2 : env.reportPath ≠ "generated/conjugator/gradio_ui.py")
    (hne3 : env.reportPath ≠ "generated/tests/test_conjugator.py")
    (hrun : pipelineTry env (mkAgents env clean interp) req st = (.ok out, st₂)) :
    ∃ c u,
      out.2.1 = "# verb_conjugator.py\n" ++ c ++ "\n\n# gradio_ui.py\n" ++ u
      ∧ st₂.fs.lookup "generated/conjugator/verb_conjugator.py" = some c
      ∧ st₂.fs.lookup "generated/conjugator/gradio_ui.py" = some u
      ∧ st₂.fs.lookup "generated/tests/test_conjugator.py" = some out.2.2.1 := by
  dsimp only [pipelineTry, mkAgents] at hrun
  obtain ⟨spec, s1, h1, hrun⟩ := bindE_ok _ _ _ _ hrun
  obtain ⟨design, s2, h2, hrun⟩ := bindE_ok _ _ _ _ hrun
  obtain ⟨gcs, s3, h3, hrun⟩ := bindE_ok _ _ _ _ hrun
  obtain ⟨tc, s4, h4, hrun⟩ := bindE_ok _ _ _ _ hrun
  obtain ⟨uu, s5, h5, hrun⟩ := bindE_ok _ _ _ _ hrun
  have f1 := parse_requirements_ok _ _ _ _ _ _ h1
  have f2 := create_design_ok _ _ _ _ _ h2
  obtain ⟨c, u, hgcs, f3⟩ := generate_code_fs_ok _ _ _ _ _ _ _ h3
  have f4 := generate_tests_fs_ok _ _ _ _ _ _ _ h4
  have f5 := save_usage_fs_ok _ _ _ _ h5
  injection hrun with hA hB
  injection hA with hA'
  have q1 : (("generated/conjugator/verb_conjugator.py" : String) == env.reportPath) = false :=
    beq_eq_false_iff_ne.mpr (Ne.symm hne1)
  have q2 : (("generated/conjugator/gradio_ui.py" : String) == env.reportPath) = false :=
    beq_eq_false_iff_ne.mpr (Ne.symm hne2)
  have q3 : (("generated/tests/test_conjugator.py" : String) == env.reportPath) = false :=
    beq_eq_false_iff_ne.mpr (Ne.symm hne3)
  have d1 : (("generated/conjugator/verb_conjugator.py" : String) ==
      "generated/tests/test_conjugator.py") = false := by decide
  have d2 : (("generated/conjugator/verb_conjugator.py" : String) ==
      "generated/conjugator/gradio_ui.py") = false := by decide
  have d3 : (("generated/conjugator/gradio_ui.py" : String) ==
      "generated/tests/test_conjugator.py") = false := by decide
  refine ⟨c, u, ?_, ?_, ?_, ?_⟩
  · rw [← hA']
    simp [load_from_file, List.lookup, f5, f4, f3, q1, q2, d1, d2, d3]
  · rw [← hB]
    simp [List.lookup, f5, f4, f3, q1, d1, d2]
  · rw [← hB]
    simp [List.lookup, f5, f4, f3, q2, d3]
  · rw [← hB, ← hA']
    simp [List.lookup, f5, f4, q3]

/-- C7 witness: a full concrete successful run from a fresh state; the three
paths hold exactly the contents of this run. -/
theorem second_run_overwrites_witness :
    ∃ c u,
      (("📝 Parsing requirements...\n🎨 Creating design...\n💻 Generating code...\n🧪 Generating tests...\n📊 Saving usage report...\n\n✅ Generation complete!",
        "# verb_conjugator.py\nprint(1)\n\n# gradio_ui.py\nprint(1)",
        "import pytest\nprint(1)", "report", create_instructions specW) :
          String × String × String × String × String).2.1
        = "# verb_conjugator.py\n" ++ c ++ "\n\n# gradio_ui.py\n" ++ u
      ∧ (PState.mk 5 [("usage_report.json", "report"),
          ("generated/tests/test_conjugator.py", "import pytest\nprint(1)"),
          ("generated/conjugator/gradio_ui.py", "print(1)"),
          ("generated/conjugator/verb_conjugator.py", "print(1)")] []).fs.lookup
            "generated/conjugator/verb_conjugator.py" = some c
      ∧ (PState.mk 5 [("usage_report.json", "report"),
          ("generated/tests/test_conjugator.py", "import pytest\nprint(1)"),
          ("generated/conjugator/gradio_ui.py", "print(1)"),
          ("generated/conjugator/verb_conjugator.py", "print(1)")] []).fs.lookup
            "generated/conjugator/gradio_ui.py" = some u
      ∧ (PState.mk 5 [("usage_report.json", "report"),
          ("generated/tests/test_conjugator.py", "import pytest\nprint(1)"),
          ("generated/conjugator/gradio_ui.py", "print(1)"),
          ("generated/conjugator/verb_conjugator.py", "print(1)")] []).fs.lookup
            "generated/tests/test_conjugator.py" = some
              (("📝 Parsing requirements...\n🎨 Creating design...\n💻 Generating code...\n🧪 Generating tests...\n📊 Saving usage report...\n\n✅ Generation complete!",
                "# verb_conjugator.py\nprint(1)\n\n# gradio_ui.py\nprint(1)",
                "import pytest\nprint(1)", "report", create_instructions specW) :
                  String × String × String × String × String).2.2.1 :=
  second_run_overwrites envOk id (fun _ => specW) "go" stW
    (PState.mk 5 [("usage_report.json", "report"),
      ("generated/tests/test_conjugator.py", "import pytest\nprint(1)"),
      ("generated/conjugator/gradio_ui.py", "print(1)"),
      ("generated/conjugator/verb_conjugator.py", "print(1)")] [])
    (("📝 Parsing requirements...\n🎨 Creating design...\n💻 Generating code...\n🧪 Generating tests...\n📊 Saving usage report...\n\n✅ Generation complete!",
      "# verb_conjugator.py\nprint(1)\n\n# gradio_ui.py\nprint(1)",
      "import pytest\nprint(1)", "report", create_instructions specW))
    (by decide) (by decide) (by decide) rfl
